import Mathlib

/-!
Verification of the feedback-collection service in `src/main.py`.

The module-level mutable globals `feedback_db` and `feedback_id_counter`
are embedded as an explicit `Store` state threaded through the handlers.
The `threading.Lock` makes the read-id/append/increment sequence of
`submit_feedback` atomic, so each handler invocation is embedded as one
atomic state transition.  Python ints are unbounded, hence `Nat`.
Python clamped slicing `l[start:end]` (with `0 <= start <= end`) is
`(l.drop start).take (end - start)`.
-/

/-- A stored feedback record (the dict built in `submit_feedback`;
`FeedbackOut` carries exactly the same three fields). -/
structure FeedbackRecord where
  id : Nat
  email : String
  message : String
deriving DecidableEq, Repr

/-- The shared mutable state: the module globals `feedback_db` and
`feedback_id_counter` of `src/main.py`. -/
structure Store where
  feedback_db : List FeedbackRecord
  feedback_id_counter : Nat
deriving DecidableEq, Repr

/-- Initial state: `feedback_db = []`, `feedback_id_counter = 1`. -/
def initStore : Store := ⟨[], 1⟩

/-- Response model `FeedbackSubmitResponse`. -/
structure FeedbackSubmitResponse where
  success : Bool
  message : String
  feedback : FeedbackRecord
deriving DecidableEq, Repr

/-- Arguments of one scheduled background task
(`background_tasks.add_task(send_confirmation_email, email, message)`). -/
structure BackgroundTask where
  email : String
  message : String
deriving DecidableEq, Repr

/-- Python `HTTPException(status_code, detail)`. -/
structure HTTPErr where
  status_code : Nat
  detail : String
deriving DecidableEq, Repr

/-- The fixed shared secret `ADMIN_TOKEN`. -/
def ADMIN_TOKEN : String := "secret-admin-token"

/-- Dependency `get_admin_token`: raises 401 unless the query token equals
`ADMIN_TOKEN`, otherwise returns `True`. -/
def get_admin_token (token : String) : Except HTTPErr Bool :=
  if token ≠ ADMIN_TOKEN then
    Except.error ⟨401, "Invalid admin token."⟩
  else
    Except.ok true

/-- Task `send_confirmation_email`: the simulated email is just a printed
line; we embed it as the string that would be printed. -/
def send_confirmation_email (email message : String) : String :=
  "Simulated email: Sending confirmation to " ++ email ++
    " for feedback: " ++ String.singleton (Char.ofNat 39) ++ message ++
    String.singleton (Char.ofNat 39)

/-- Handler `submit_feedback`: under the lock, build the record with the current
counter as id, append it, increment the counter; then schedule the
confirmation-email background task and return the success response.
Result: (post-state, response, scheduled background tasks). -/
def submit_feedback (s : Store) (email message : String) :
    Store × FeedbackSubmitResponse × List BackgroundTask :=
  let feedback_record : FeedbackRecord :=
    ⟨s.feedback_id_counter, email, message⟩
  (⟨s.feedback_db ++ [feedback_record], s.feedback_id_counter + 1⟩,
   ⟨true, "Feedback received. Confirmation email sent.", feedback_record⟩,
   [⟨email, message⟩])

/-- Python `str.lower`, embedded character-wise (`String.map
Char.toLower` unfolded to the character list so that it computes). -/
def lower (s : String) : String := ⟨s.data.map Char.toLower⟩

/-- The `filtered` list of `get_feedbacks`: Python `if email:` is truthy
exactly for a present, non-empty string; then it keeps the records whose
lower-cased email equals the lower-cased filter, else it copies the db. -/
def filteredDb (db : List FeedbackRecord) (email : Option String) :
    List FeedbackRecord :=
  match email with
  | some e =>
      if e = "" then db
      else db.filter (fun f => lower f.email == lower e)
  | none => db

/-- Response model `FeedbackListOut`. -/
structure FeedbackListOut where
  total : Nat
  page : Nat
  page_size : Nat
  feedbacks : List FeedbackRecord
deriving DecidableEq, Repr

/-- Handler `get_feedbacks`: after the `get_admin_token` dependency passes,
filter by email, paginate with `start = (page-1)*page_size`,
`end = start + page_size`, `paginated = filtered[start:end]`. -/
def get_feedbacks (page page_size : Nat) (email : Option String)
    (token : String) (db : List FeedbackRecord) :
    Except HTTPErr FeedbackListOut :=
  match get_admin_token token with
  | Except.error e => Except.error e
  | Except.ok _ =>
      let filtered := filteredDb db email
      let total := filtered.length
      let start := (page - 1) * page_size
      let endIdx := start + page_size
      let paginated := (filtered.drop start).take (endIdx - start)
      Except.ok ⟨total, page, page_size, paginated⟩

/-- One API operation hitting the shared store. -/
inductive Op where
  | submit (email message : String)
  | list (page page_size : Nat) (email : Option String) (token : String)
deriving DecidableEq, Repr

/-- State transition of one operation: `submit_feedback` mutates the
globals under the lock; `get_feedbacks` performs no assignment to the
globals, so it leaves the state unchanged. -/
def step (op : Op) (s : Store) : Store :=
  match op with
  | Op.submit e m => (submit_feedback s e m).1
  | Op.list _ _ _ _ => s

/-- State after running a sequence of operations from the initial state. -/
def run (ops : List Op) : Store :=
  ops.foldl (fun s op => step op s) initStore

/-- The store invariant: ids are exactly 1..count in order, and the
counter is count+1. -/
def storeInv (s : Store) : Prop :=
  s.feedback_db.map (fun r => r.id) =
    List.range' 1 s.feedback_db.length ∧
  s.feedback_id_counter = s.feedback_db.length + 1

theorem step_preserves_inv (op : Op) (s : Store) (h : storeInv s) :
    storeInv (step op s) := by
  obtain ⟨hids, hcnt⟩ := h
  cases op with
  | list page page_size email token => exact ⟨hids, hcnt⟩
  | submit e m =>
      constructor
      · simp only [step, submit_feedback, List.map_append, List.length_append,
          hids, hcnt, List.map_cons, List.map_nil, List.length_cons,
          List.length_nil]
        rw [List.range'_concat]
        simp [Nat.add_comm]
      · simp only [step, submit_feedback, List.length_append, hcnt,
          List.length_cons, List.length_nil]

theorem run_inv (ops : List Op) : storeInv (run ops) := by
  suffices h : ∀ s : Store, storeInv s →
      storeInv (ops.foldl (fun s op => step op s) s) by
    exact h initStore ⟨rfl, rfl⟩
  induction ops with
  | nil => intro s hs; exact hs
  | cons op ops ih =>
      intro s hs
      exact ih (step op s) (step_preserves_inv op s hs)

/-- C1. `submit_feedback` on a state with counter `n` builds the
record `{id := n, email, message}`, appends it to the end of the store,
increments the counter to `n+1`, and the success response carries exactly
that record; on the empty initial store the first submission gets id 1
and a second submission gets id 2. -/
theorem submit_feedback_spec :
    (∀ (s : Store) (email message : String),
      (submit_feedback s email message).2.1.feedback =
        ⟨s.feedback_id_counter, email, message⟩ ∧
      (submit_feedback s email message).1.feedback_db =
        s.feedback_db ++ [(submit_feedback s email message).2.1.feedback] ∧
      (submit_feedback s email message).1.feedback_id_counter =
        s.feedback_id_counter + 1 ∧
      (submit_feedback s email message).2.1.success = true) ∧
    (submit_feedback initStore "u1@example.com"
        "Great experience here!").2.1 =
      ⟨true, "Feedback received. Confirmation email sent.",
        ⟨1, "u1@example.com", "Great experience here!"⟩⟩ ∧
    (submit_feedback
        (submit_feedback initStore "u1@example.com"
          "Great experience here!").1
        "u2@example.com" "Found a bug in the dashboard.").2.1.feedback.id
      = 2 := by
  refine ⟨fun s email message => ⟨rfl, rfl, rfl, rfl⟩, rfl, rfl⟩

/-- C10. An empty-string email filter is treated as absent: the
filter branch is only taken for a non-empty string, so the result equals
the unfiltered listing, even when a stored record has a non-empty email. -/
theorem empty_filter_is_absent :
    (∀ (db : List FeedbackRecord), filteredDb db (some "") = db) ∧
    (∀ (page page_size : Nat) (token : String) (db : List FeedbackRecord),
      get_feedbacks page page_size (some "") token db =
        get_feedbacks page page_size none token db) ∧
    get_feedbacks 1 10 (some "") ADMIN_TOKEN
        [⟨1, "a@b.com", "hello world"⟩] =
      Except.ok ⟨1, 1, 10, [⟨1, "a@b.com", "hello world"⟩]⟩ := by
  refine ⟨fun db => rfl, fun page page_size token db => rfl, rfl⟩

/-- The 5-record store of the spec's pagination-clamping scenario. -/
def db5 : List FeedbackRecord :=
  [⟨1, "u1@example.com", "first message here"⟩,
   ⟨2, "u2@example.com", "second message here"⟩,
   ⟨3, "u3@example.com", "third message here"⟩,
   ⟨4, "u4@example.com", "fourth message here"⟩,
   ⟨5, "u5@example.com", "fifth message here"⟩]

/-- C2. In every state reachable from the initial empty store by
submit and list operations, the stored ids are exactly 1..count in
ascending insertion order with no gaps, the counter equals count+1, and
every id already issued is strictly below the counter (so the next
issued id exceeds them all). -/
theorem reachable_store_invariant (ops : List Op) :
    (run ops).feedback_db.map (fun r => r.id) =
      List.range' 1 (run ops).feedback_db.length ∧
    (run ops).feedback_id_counter = (run ops).feedback_db.length + 1 ∧
    ∀ r ∈ (run ops).feedback_db,
      r.id < (run ops).feedback_id_counter := by
  obtain ⟨h1, h2⟩ := run_inv ops
  refine ⟨h1, h2, ?_⟩
  intro r hr
  have hmem : r.id ∈ List.range' 1 (run ops).feedback_db.length := by
    rw [← h1]
    exact List.mem_map_of_mem (fun r => r.id) hr
  have hlt := (List.mem_range'_1.mp hmem).2
  omega

/-- C3. With the valid token, any page ≥ 1 and page_size in [1,50],
`get_feedbacks` succeeds with total = number of retained records and the
page equal to the clamped slice retained[(page-1)*page_size : +page_size]:
empty page (same total) when start ≥ total, and only the remaining
records when end > total; on 5 records, page=2,size=2 gives records 3
and 4, and page=10,size=2 gives an empty list with total 5. -/
theorem get_feedbacks_pagination (db : List FeedbackRecord)
    (email : Option String) (page page_size : Nat)
    (hp : 1 ≤ page) (hs1 : 1 ≤ page_size) (hs2 : page_size ≤ 50) :
    (∃ out, get_feedbacks page page_size email ADMIN_TOKEN db =
        Except.ok out ∧
      out.total = (filteredDb db email).length ∧
      out.page = page ∧
      out.page_size = page_size ∧
      out.feedbacks =
        ((filteredDb db email).drop ((page - 1) * page_size)).take
          page_size ∧
      (out.total ≤ (page - 1) * page_size → out.feedbacks = []) ∧
      out.feedbacks.length =
        min page_size (out.total - (page - 1) * page_size)) ∧
    get_feedbacks 2 2 none ADMIN_TOKEN db5 =
      Except.ok ⟨5, 2, 2,
        [⟨3, "u3@example.com", "third message here"⟩,
         ⟨4, "u4@example.com", "fourth message here"⟩]⟩ ∧
    get_feedbacks 10 2 none ADMIN_TOKEN db5 =
      Except.ok ⟨5, 10, 2, []⟩ := by
  refine ⟨?_, rfl, rfl⟩
  refine ⟨⟨(filteredDb db email).length, page, page_size,
    ((filteredDb db email).drop ((page - 1) * page_size)).take
      ((page - 1) * page_size + page_size - (page - 1) * page_size)⟩,
    ?_, rfl, rfl, rfl, ?_, ?_, ?_⟩
  · simp [get_feedbacks, get_admin_token]
  · simp
  · intro hle
    simp only
    rw [List.drop_eq_nil_of_le hle]
    simp
  · simp only [Nat.add_sub_cancel_left, List.length_take, List.length_drop]

/-- C4. With a present non-empty filter, exactly the records whose
email equals the filter after lower-casing both sides are retained (no
partial match), all records are retained when the filter is absent, and
(concretely) a record submitted with email A@B.com is returned for the
query a@b.com. -/
theorem email_filter_case_insensitive (db : List FeedbackRecord)
    (e : String) (he : e ≠ "") :
    (∀ r, r ∈ filteredDb db (some e) ↔
        r ∈ db ∧ lower r.email = lower e) ∧
    filteredDb db none = db ∧
    get_feedbacks 1 10 (some "a@b.com") ADMIN_TOKEN
        [⟨1, "A@B.com", "nice dashboard here"⟩] =
      Except.ok ⟨1, 1, 10, [⟨1, "A@B.com", "nice dashboard here"⟩]⟩ := by
  refine ⟨?_, rfl, rfl⟩
  intro r
  simp [filteredDb, he, List.mem_filter]

/-- Witness for the email-filter theorem at concrete inputs. -/
theorem email_filter_case_insensitive_witness :
    ((⟨1, "A@B.com", "m"⟩ : FeedbackRecord) ∈
        filteredDb [⟨1, "A@B.com", "m"⟩] (some "a@b.com") ↔
      (⟨1, "A@B.com", "m"⟩ : FeedbackRecord) ∈
          [(⟨1, "A@B.com", "m"⟩ : FeedbackRecord)] ∧
        lower "A@B.com" = lower "a@b.com") :=
  (email_filter_case_insensitive [⟨1, "A@B.com", "m"⟩] "a@b.com"
    (by decide)).1 ⟨1, "A@B.com", "m"⟩

/-- C5. `get_feedbacks` fails if and only if the token differs from
the fixed secret; on failure the result is the bare 401 error,
independent of the store contents, and the store is unchanged (the list
operation never mutates the state). -/
theorem token_mismatch_unauthorized (page page_size : Nat)
    (email : Option String) (token : String) (db : List FeedbackRecord) :
    ((∃ err, get_feedbacks page page_size email token db =
        Except.error err) ↔ token ≠ ADMIN_TOKEN) ∧
    (token ≠ ADMIN_TOKEN →
      get_feedbacks page page_size email token db =
        Except.error ⟨401, "Invalid admin token."⟩ ∧
      ∀ db2, get_feedbacks page page_size email token db2 =
        get_feedbacks page page_size email token db) ∧
    ∀ s : Store, step (Op.list page page_size email token) s = s := by
  refine ⟨⟨?_, ?_⟩, ?_, fun s => rfl⟩
  · rintro ⟨err, herr⟩ htok
    simp [get_feedbacks, get_admin_token, htok] at herr
  · intro htok
    exact ⟨⟨401, "Invalid admin token."⟩, by
      simp [get_feedbacks, get_admin_token, htok]⟩
  · intro htok
    constructor
    · simp [get_feedbacks, get_admin_token, htok]
    · intro db2
      simp [get_feedbacks, get_admin_token, htok]

/-- Witness for the token-mismatch theorem at concrete inputs. -/
theorem token_mismatch_unauthorized_witness :
    get_feedbacks 1 10 none "wrong-token" db5 =
      Except.error ⟨401, "Invalid admin token."⟩ :=
  ((token_mismatch_unauthorized 1 10 none "wrong-token" db5).2.1
    (by decide)).1

/-- C6. With no filter, page 1, and a page size at least the store
size, `get_feedbacks` returns exactly the full stored sequence, in
insertion order; in any reachable store that sequence is in ascending-id
order (ids 1..count), with nothing omitted or duplicated. -/
theorem list_returns_all_in_order (ops : List Op) (page_size : Nat)
    (h : (run ops).feedback_db.length ≤ page_size) :
    get_feedbacks 1 page_size none ADMIN_TOKEN (run ops).feedback_db =
      Except.ok ⟨(run ops).feedback_db.length, 1, page_size,
        (run ops).feedback_db⟩ ∧
    (run ops).feedback_db.map (fun r => r.id) =
      List.range' 1 (run ops).feedback_db.length := by
  refine ⟨?_, (run_inv ops).1⟩
  simp [get_feedbacks, get_admin_token, filteredDb,
    List.take_of_length_le h]

/-- Witness for the full-listing theorem at concrete inputs. -/
theorem list_returns_all_in_order_witness :
    get_feedbacks 1 10 none ADMIN_TOKEN
        (run [Op.submit "u1@example.com" "great stuff here"]).feedback_db =
      Except.ok ⟨(run [Op.submit "u1@example.com"
          "great stuff here"]).feedback_db.length, 1, 10,
        (run [Op.submit "u1@example.com"
          "great stuff here"]).feedback_db⟩ :=
  (list_returns_all_in_order [Op.submit "u1@example.com"
    "great stuff here"] 10 (by decide)).1

/-- C7. Every successful submission schedules the confirmation-email
task exactly once, with arguments equal to the exact email and message
of the record just stored; the response is fully determined by the
pre-state and the input (so the scheduled task can never influence the
already-computed success response). -/
theorem notification_exactly_once (s : Store) (email message : String) :
    (submit_feedback s email message).2.2 =
      [⟨(submit_feedback s email message).2.1.feedback.email,
        (submit_feedback s email message).2.1.feedback.message⟩] ∧
    (submit_feedback s email message).2.2.length = 1 ∧
    (submit_feedback s email message).2.1 =
      ⟨true, "Feedback received. Confirmation email sent.",
        ⟨s.feedback_id_counter, email, message⟩⟩ :=
  ⟨rfl, rfl, rfl⟩

/-- C8. Records stored before an operation are unchanged after it:
a submission appends exactly one record at the end and a list operation
leaves the whole state untouched. -/
theorem append_only_frame (s : Store) (op : Op) :
    (step op s).feedback_db.take s.feedback_db.length = s.feedback_db ∧
    (∀ e m, op = Op.submit e m →
      step op s = ⟨s.feedback_db ++ [⟨s.feedback_id_counter, e, m⟩],
        s.feedback_id_counter + 1⟩) ∧
    (∀ page page_size email token,
      op = Op.list page page_size email token → step op s = s) := by
  cases op with
  | submit e m =>
      refine ⟨?_, ?_, ?_⟩
      · exact List.take_left s.feedback_db _
      · intro e2 m2 heq
        cases heq
        rfl
      · intro page page_size email token heq
        cases heq
  | list page page_size email token =>
      refine ⟨List.take_length s.feedback_db, ?_, fun _ _ _ _ _ => rfl⟩
      intro e2 m2 heq
      cases heq

/-- Witness for the frame theorem at concrete inputs. -/
theorem append_only_frame_witness :
    step (Op.submit "u1@example.com" "great stuff here") ⟨[], 1⟩ =
      ⟨[] ++ [⟨1, "u1@example.com", "great stuff here"⟩], 1 + 1⟩ :=
  (append_only_frame ⟨[], 1⟩
    (Op.submit "u1@example.com" "great stuff here")).2.1
    "u1@example.com" "great stuff here" rfl

/-- Witness for the pagination theorem at concrete inputs. -/
theorem get_feedbacks_pagination_witness :
    get_feedbacks 2 2 none ADMIN_TOKEN db5 =
      Except.ok ⟨5, 2, 2,
        [⟨3, "u3@example.com", "third message here"⟩,
         ⟨4, "u4@example.com", "fourth message here"⟩]⟩ :=
  (get_feedbacks_pagination db5 none 2 2 (by decide) (by decide)
    (by decide)).2.1
